import Mathlib

/-
Verification of the debate orchestration engine of the Inclusive_Urban_Sim
repository: the response parser (src/debate/parser.py), the retry-wrapped
LLM call layer (src/llm_api/base.py and src/llm_api/__init__.py), the agent
memory (src/agent_api/memory.py), the run logger (src/debate/logger.py,
src/logger/logger.py) and the phase controllers (src/debate/simulation.py,
src/debate/simulation_lv1.py).

Python values decoded from JSON are modelled by the inductive `Json`;
Python dictionaries are association lists with first-position, last-value
insertion semantics; Python exceptions are modelled by `Except` with the
`PyExn` error type.  All definitions are executable.
-/

set_option autoImplicit false

namespace UrbanSim

/-- A JSON value as produced by the Python standard library decoder.
Numbers are restricted to integers; none of the verified code paths
involves fractional numbers. -/
inductive Json where
  | null : Json
  | bool : Bool → Json
  | num : Int → Json
  | str : String → Json
  | arr : List Json → Json
  | obj : List (String × Json) → Json
  deriving Repr

/-- Python exceptions that the modelled code can raise. -/
inductive PyExn where
  | keyError : String → PyExn
  | attributeError : String → PyExn
  deriving Repr, DecidableEq

-- ---------------------------------------------------------------------------
-- Model of Python `json.loads` (a recursive-descent JSON reader).
-- ---------------------------------------------------------------------------

/-- JSON whitespace characters. -/
def isJsonWs (c : Char) : Bool :=
  c = ' ' || c = '\t' || c = '\n' || c = '\r'

/-- Drop leading JSON whitespace. -/
def skipWs : List Char → List Char
  | [] => []
  | c :: cs => if isJsonWs c then skipWs cs else c :: cs

/-- Decode one escape character of a JSON string literal. -/
def unescapeChar (c : Char) : Option Char :=
  if c = '"' then some '"'
  else if c = '\\' then some '\\'
  else if c = '/' then some '/'
  else if c = 'n' then some '\n'
  else if c = 't' then some '\t'
  else if c = 'r' then some '\r'
  else if c = 'b' then some (Char.ofNat 8)
  else if c = 'f' then some (Char.ofNat 12)
  else none

/-- Read the body of a JSON string literal after the opening quote; returns
the decoded characters and the input past the closing quote. -/
def readStr : List Char → Option (List Char × List Char)
  | [] => none
  | c :: cs =>
    if c = '"' then some ([], cs)
    else if c = '\\' then
      match cs with
      | [] => none
      | e :: cs₂ =>
        match unescapeChar e with
        | none => none
        | some d =>
          match readStr cs₂ with
          | none => none
          | some (body, rest) => some (d :: body, rest)
    else
      match readStr cs with
      | none => none
      | some (body, rest) => some (c :: body, rest)

/-- Longest prefix of decimal digits. -/
def readDigits : List Char → (List Char × List Char)
  | [] => ([], [])
  | c :: cs =>
    if c.isDigit then
      let (ds, rest) := readDigits cs
      (c :: ds, rest)
    else ([], c :: cs)

/-- Numeric value of a digit list. -/
def digitsToNat : List Char → Nat → Nat
  | [], acc => acc
  | c :: cs, acc => digitsToNat cs (acc * 10 + (c.toNat - '0'.toNat))

/-- Read a JSON integer (optional minus sign followed by digits). -/
def readNum : List Char → Option (Int × List Char)
  | [] => none
  | c :: cs =>
    if c = '-' then
      match readDigits cs with
      | ([], _) => none
      | (ds, rest) => some (-(Int.ofNat (digitsToNat ds 0)), rest)
    else
      match readDigits (c :: cs) with
      | ([], _) => none
      | (ds, rest) => some (Int.ofNat (digitsToNat ds 0), rest)

/-- Insert a key into a decoded object with Python dictionary semantics:
a repeated key keeps its first position but takes the last value. -/
def objInsert (fields : List (String × Json)) (k : String) (v : Json) :
    List (String × Json) :=
  if fields.any (fun p => p.1 = k) then
    fields.map (fun p => if p.1 = k then (k, v) else p)
  else fields ++ [(k, v)]

/-- Fuel bound used by the reader: twice the input length is enough,
since at least one character is consumed for every two fuel units. -/
def fuelOf (cs : List Char) : Nat := 2 * cs.length + 2

/-- Reader state: a value position, the items of an array being read, or
the members of an object being read (with what was accumulated so far). -/
inductive ReadMode where
  | val : ReadMode
  | arrItems : List Json → ReadMode
  | objItems : List (String × Json) → ReadMode

/-- Recursive-descent JSON reader; `fuel` bounds the recursion depth.
In `val` mode it reads one JSON value; in `arrItems` mode it reads the
remaining items of an array after the opening bracket; in `objItems` mode
it reads the remaining members of an object after the opening brace. -/
def readJson : Nat → ReadMode → List Char → Option (Json × List Char)
  | 0, _, _ => none
  | fuel + 1, .val, cs =>
    match skipWs cs with
    | 'n' :: 'u' :: 'l' :: 'l' :: rest => some (.null, rest)
    | 't' :: 'r' :: 'u' :: 'e' :: rest => some (.bool true, rest)
    | 'f' :: 'a' :: 'l' :: 's' :: 'e' :: rest => some (.bool false, rest)
    | '"' :: rest =>
      match readStr rest with
      | none => none
      | some (body, rest₂) => some (.str (String.mk body), rest₂)
    | '[' :: rest =>
      match skipWs rest with
      | ']' :: rest₂ => some (.arr [], rest₂)
      | rest₂ => readJson fuel (.arrItems []) rest₂
    | '\x7b' :: rest =>
      match skipWs rest with
      | '\x7d' :: rest₂ => some (.obj [], rest₂)
      | rest₂ => readJson fuel (.objItems []) rest₂
    | rest =>
      match readNum rest with
      | some (n, rest₂) => some (.num n, rest₂)
      | none => none
  | fuel + 1, .arrItems acc, cs =>
    match readJson fuel .val cs with
    | none => none
    | some (v, rest) =>
      match skipWs rest with
      | ',' :: rest₂ => readJson fuel (.arrItems (acc ++ [v])) rest₂
      | ']' :: rest₂ => some (.arr (acc ++ [v]), rest₂)
      | _ => none
  | fuel + 1, .objItems acc, cs =>
    match skipWs cs with
    | '"' :: rest =>
      match readStr rest with
      | none => none
      | some (key, rest₂) =>
        match skipWs rest₂ with
        | ':' :: rest₃ =>
          match readJson fuel .val rest₃ with
          | none => none
          | some (v, rest₄) =>
            let acc₂ := objInsert acc (String.mk key) v
            match skipWs rest₄ with
            | ',' :: rest₅ => readJson fuel (.objItems acc₂) rest₅
            | '\x7d' :: rest₅ => some (.obj acc₂, rest₅)
            | _ => none
        | _ => none
    | _ => none

/-- Model of Python `json.loads`: `none` models a raised
`json.JSONDecodeError`.  The whole input, up to surrounding whitespace,
must be a single JSON value. -/
def jsonLoads (s : String) : Option Json :=
  match readJson (fuelOf s.data) .val s.data with
  | none => none
  | some (v, rest) => if skipWs rest = [] then some v else none

-- ---------------------------------------------------------------------------
-- Python string primitives (modelled over character lists, which reduce
-- in the kernel, unlike the position-based core String functions)
-- ---------------------------------------------------------------------------

/-- Whitespace for Python `str.strip` (ASCII fragment). -/
def pyIsSpace (c : Char) : Bool :=
  c = ' ' || c = '\t' || c = '\n' || c = '\r' || c = '\x0b' || c = '\x0c'

/-- Python `str.lstrip()`. -/
def pyLStrip (s : String) : String :=
  String.mk (s.data.dropWhile pyIsSpace)

/-- Python `str.rstrip()`. -/
def pyRStrip (s : String) : String :=
  String.mk (s.data.reverse.dropWhile pyIsSpace).reverse

/-- Python `str.strip()`. -/
def pyStrip (s : String) : String :=
  pyRStrip (pyLStrip s)

/-- Whether the character list `bs` is a prefix of `as₀`. -/
def charsStartWith : List Char → List Char → Bool
  | _, [] => true
  | [], _ :: _ => false
  | a :: as₀, b :: bs => a == b && charsStartWith as₀ bs

/-- Python `str.startswith`. -/
def pyStartsWith (s pre : String) : Bool :=
  charsStartWith s.data pre.data

/-- Python `str.endswith`. -/
def pyEndsWith (s suf : String) : Bool :=
  charsStartWith s.data.reverse suf.data.reverse

/-- Python slicing `s[n:]`. -/
def pyDrop (s : String) (n : Nat) : String :=
  String.mk (s.data.drop n)

/-- Python slicing `s[:-n]`. -/
def pyDropRight (s : String) (n : Nat) : String :=
  String.mk (s.data.reverse.drop n).reverse

/-- Python `str.lower()` (ASCII fragment). -/
def pyToLower (s : String) : String :=
  String.mk (s.data.map Char.toLower)

/-- One fuelled step list of Python `str.replace`: replace every
occurrence of a non-empty pattern. -/
def replaceChars : Nat → List Char → List Char → List Char → List Char
  | 0, cs, _, _ => cs
  | fuel + 1, cs, pat, repl =>
    match cs with
    | [] => []
    | c :: rest =>
      if !pat.isEmpty && charsStartWith cs pat then
        repl ++ replaceChars fuel (cs.drop pat.length) pat repl
      else c :: replaceChars fuel rest pat repl

/-- Python `str.replace` (with a non-empty pattern). -/
def pyReplace (s pat repl : String) : String :=
  String.mk (replaceChars s.data.length s.data pat.data repl.data)

-- ---------------------------------------------------------------------------
-- src/debate/parser.py
-- ---------------------------------------------------------------------------

/-- Model of `_strip_markdown` (src/debate/parser.py lines 14-23): strip the
text and remove a leading ```` ``` ```` or ```` ```json ```` fence and a
trailing ```` ``` ```` fence. -/
def stripMarkdown (text : Option String) : String :=
  match text with
  | none => ""
  | some t₀ =>
    let t := pyStrip t₀
    if pyStartsWith t "```" then
      let u := pyDrop t 3
      let u := if pyStartsWith u "json" then pyDrop u 4 else u
      let u := pyLStrip u
      let u := if pyEndsWith u "```" then pyRStrip (pyDropRight u 3) else u
      pyStrip u
    else pyStrip t

/-- Python dictionary read with a default: `d.get(k, dflt)`. -/
def pyDictGet (fields : List (String × Json)) (k : String) (dflt : Json) :
    Json :=
  match fields.lookup k with
  | some v => v
  | none => dflt

/-- Python dictionary subscript `d[k]`: raises `KeyError` on a missing key. -/
def pyGetItem (fields : List (String × Json)) (k : String) :
    Except PyExn Json :=
  match fields.lookup k with
  | some v => .ok v
  | none => .error (.keyError k)

/-- Python truthiness of a decoded value. -/
def pyTruthy : Json → Bool
  | .null => false
  | .bool b => b
  | .num n => n != 0
  | .str s => s != ""
  | .arr xs => !xs.isEmpty
  | .obj fs => !fs.isEmpty

/-- Normalisation of the 지목 (nomination) field performed by the success
branch of `parse_response` (src/debate/parser.py lines 50-62): `None`
becomes the empty list, a legacy non-empty string becomes a one-element
list pairing the target with the top-level 입장 (attitude) value, a list is
kept as-is, anything else becomes the empty list. -/
def normalizeJimok (fields : List (String × Json)) : Json :=
  match pyDictGet fields "지목" (.arr []) with
  | .null => .arr []
  | .str t =>
    let attitude := pyDictGet fields "입장" .null
    if pyTruthy (.str t) then .arr [.obj [("대상", .str t), ("입장", attitude)]]
    else .arr []
  | .arr xs => .arr xs
  | _ => .arr []

/-- Success branch of `parse_response` (src/debate/parser.py lines 50-67):
field extraction from the decoded value.  A decoded value that is not an
object raises `AttributeError` in Python at `parsed.get`, which
`parse_response` does not catch. -/
def responseFromJson (raw : String) (v : Json) :
    Except PyExn (List (String × Json)) :=
  match v with
  | .obj fields =>
    .ok [("발화", pyDictGet fields "발화" (.str raw)),
         ("지목", normalizeJimok fields)]
  | _ => .error (.attributeError "get")

/-- Model of `parse_response` (src/debate/parser.py lines 26-72): a `None`
input yields the placeholder default, a decode failure yields the default
carrying the raw text, otherwise the decoded object is normalised.  The
returned dictionary has exactly the keys 발화 and 지목. -/
def parse_response (response : Option String) :
    Except PyExn (List (String × Json)) :=
  match response with
  | none => .ok [("발화", .str "[응답 없음]"), ("지목", .arr [])]
  | some s =>
    match jsonLoads (stripMarkdown (some s)) with
    | none => .ok [("발화", .str s), ("지목", .arr [])]
    | some parsed => responseFromJson s parsed

/-- Model of `parse_think` (src/debate/parser.py lines 75-109). -/
def parse_think (response : Option String) :
    Except PyExn (List (String × Json)) :=
  match response with
  | none =>
    .ok [("상대의견", .null), ("반응유형", .null), ("생각", .str "[응답 없음]")]
  | some s =>
    match jsonLoads (stripMarkdown (some s)) with
    | none => .ok [("상대의견", .null), ("반응유형", .null), ("생각", .str s)]
    | some (.obj fields) =>
      .ok [("상대의견", pyDictGet fields "상대의견" .null),
           ("반응유형", pyDictGet fields "반응유형" .null),
           ("생각", pyDictGet fields "생각" (.str s))]
    | some _ => .error (.attributeError "get")

/-- Model of `parse_initial_opinion` (src/debate/parser.py lines 112-143).
The success branch calls `.replace(" ", "")` on the 입장 value, which
raises `AttributeError` when that value is not a string. -/
def parse_initial_opinion (response : Option String) :
    Except PyExn (List (String × Json)) :=
  match response with
  | none => .ok [("입장", .str "무관심"), ("생각", .str "[응답 없음]")]
  | some s =>
    match jsonLoads (stripMarkdown (some s)) with
    | none => .ok [("입장", .str "무관심"), ("생각", .str s)]
    | some (.obj fields) =>
      match pyDictGet fields "입장" (.str "무관심") with
      | .str v =>
        .ok [("입장", .str (pyReplace v " " "")),
             ("생각", pyDictGet fields "생각" (.str s))]
      | _ => .error (.attributeError "replace")
    | some _ => .error (.attributeError "get")

/-- Validation of a 지목 list inside one batch speech item
(src/debate/parser.py lines 247-254): every entry must be an object
containing the key 대상, otherwise the whole batch parse returns `None`. -/
def validateJimokList : List Json → Option (List Json)
  | [] => some []
  | j :: js =>
    match j with
    | .obj jf =>
      if jf.any (fun p => p.1 = "대상") then
        match validateJimokList js with
        | none => none
        | some rest =>
          some (.obj [("대상", pyDictGet jf "대상" .null),
                      ("입장", pyDictGet jf "입장" (.str ""))] :: rest)
      else none
    | _ => none

/-- Per-item loop of `parse_batch_speech` (src/debate/parser.py lines
236-264): items with a falsy `resident_id` are skipped, a malformed 지목
entry makes the whole call return `None`, and a non-object item raises
`AttributeError` at `item.get`. -/
def batchSpeechItems :
    List Json → Except PyExn (Option (List (List (String × Json))))
  | [] => .ok (some [])
  | item :: items =>
    match item with
    | .obj fields =>
      let rid := pyDictGet fields "resident_id" .null
      if !(pyTruthy rid) then batchSpeechItems items
      else
        let jimok? : Option Json :=
          match pyDictGet fields "지목" (.arr []) with
          | .null => some (.arr [])
          | .str t =>
            some (if pyTruthy (.str t) then
                    .arr [.obj [("대상", .str t), ("입장", .null)]]
                  else .arr [])
          | .arr xs => (validateJimokList xs).map .arr
          | _ => some (.arr [])
        match jimok? with
        | none => .ok none
        | some jimok =>
          match batchSpeechItems items with
          | .error e => .error e
          | .ok none => .ok none
          | .ok (some rest) =>
            .ok (some ([("resident_id", rid),
                        ("발화", pyDictGet fields "발화" (.str "")),
                        ("지목", jimok)] :: rest))
    | _ => .error (.attributeError "get")

/-- Model of `parse_batch_speech` (src/debate/parser.py lines 222-269):
`some none` models the Python `None` return that signals a whole-batch
format failure (a `None` input, a decode failure, a non-list decode, or a
malformed 지목 entry); `some (some l)` models a successful item list. -/
def parse_batch_speech (response : Option String) :
    Except PyExn (Option (List (List (String × Json)))) :=
  match response with
  | none => .ok none
  | some s =>
    match jsonLoads (stripMarkdown (some s)) with
    | none => .ok none
    | some (.arr items) => batchSpeechItems items
    | some _ => .ok none

-- ---------------------------------------------------------------------------
-- src/llm_api/base.py : BaseLLM.chat_with_retry
-- ---------------------------------------------------------------------------

/-- Usage statistics returned by a provider `chat` call. -/
abbrev Usage := List (String × Int)

/-- Outcome of one provider `chat` attempt: either a raised exception with
its message, or a returned `(result, usage)` pair in which the result may
be `None`. -/
inductive ChatOutcome where
  | raises : String → ChatOutcome
  | returns : Option String → Usage → ChatOutcome

/-- Whether a chat attempt counts as failed for the retry loop of
`chat_with_retry`: it raised, or it returned `None`. -/
def chatFailed : ChatOutcome → Bool
  | .returns (some _) _ => false
  | _ => true

/-- Result of `chat_with_retry` together with the observable retry trace:
the number of `chat` attempts made and the list of back-off sleep
durations (in seconds) in order. -/
structure RetryResult where
  text : Option String
  usage : Usage
  attempts : Nat
  sleeps : List Nat
  deriving Repr

/-- Retry loop of `BaseLLM.chat_with_retry` (src/llm_api/base.py lines
29-41): a non-`None` result is returned at once; an exception or a `None`
result leads to `time.sleep(2 ** attempt)` (except after the last attempt)
and another attempt; exhaustion returns `(None, \x7b\x7d)`.  The structural
argument `remaining` is the number of attempts still allowed, so
`remaining = maxRetries - attempt`; the source condition
`attempt < max_retries - 1` for sleeping is `remaining ≠ 1`. -/
def chatRetryAux (chat : Nat → ChatOutcome) :
    Nat → Nat → List Nat → RetryResult
  | 0, attempt, sleeps => ⟨none, [], attempt, sleeps⟩
  | remaining + 1, attempt, sleeps =>
    match chat attempt with
    | .returns (some r) u => ⟨some r, u, attempt + 1, sleeps⟩
    | _ =>
      let sleeps₂ :=
        if remaining != 0 then sleeps ++ [2 ^ attempt] else sleeps
      chatRetryAux chat remaining (attempt + 1) sleeps₂

/-- Model of `BaseLLM.chat_with_retry` (src/llm_api/base.py lines 29-41).
The default retry bound in the source is 3. -/
def chat_with_retry (chat : Nat → ChatOutcome) (maxRetries : Nat) :
    RetryResult :=
  chatRetryAux chat maxRetries 0 []

-- ---------------------------------------------------------------------------
-- src/llm_api/__init__.py : call_llm
-- ---------------------------------------------------------------------------

/-- Whether `needle` occurs as a contiguous substring of `hay`. -/
def charsContain (hay needle : List Char) : Bool :=
  match hay with
  | [] => needle.isEmpty
  | _ :: rest => charsStartWith hay needle || charsContain rest needle

/-- Whether one string contains another, as Python `x in error_str`. -/
def strContains (hay needle : String) : Bool :=
  charsContain hay.data needle.data

/-- The non-retryable error markers of `call_llm`
(src/llm_api/__init__.py line 297). -/
def permanentMarkers : List String :=
  ["auth", "invalid", "api key", "not found", "disabled"]

/-- Model of the string classification at src/llm_api/__init__.py lines
296-299: a lower-cased exception message containing any marker is treated
as non-retryable. -/
def isPermanentErrorMsg (msg : String) : Bool :=
  permanentMarkers.any (fun x => strContains (pyToLower msg) x)

/-- Result of `call_llm` with its observable retry trace: the outcome (a
response text or the message of the raised exception), the number of
attempts, and the back-off sleep durations in order. -/
structure CallLlmResult where
  outcome : Except String String
  attempts : Nat
  sleeps : List ℚ
  deriving Repr

/-- Retry loop of `call_llm` (src/llm_api/__init__.py lines 277-309): a
non-retryable (permanent) message is re-raised at once with no further
attempt and no back-off sleep; a retryable failure sleeps
`retry_delay * 2 ** attempt` (except after the last attempt); exhaustion
re-raises the last exception.  The structural argument `remaining` is the
number of attempts still allowed, so `remaining = maxRetries - attempt`. -/
def callLlmAux (callFn : Nat → Except String String) (retryDelay : ℚ) :
    Nat → Nat → List ℚ → Option String → CallLlmResult
  | 0, attempt, sleeps, lastExn => ⟨.error (lastExn.getD ""), attempt, sleeps⟩
  | remaining + 1, attempt, sleeps, _lastExn =>
    match callFn attempt with
    | .ok r => ⟨.ok r, attempt + 1, sleeps⟩
    | .error e =>
      if isPermanentErrorMsg e then ⟨.error e, attempt + 1, sleeps⟩
      else
        let sleeps₂ :=
          if remaining != 0 then sleeps ++ [retryDelay * 2 ^ attempt]
          else sleeps
        callLlmAux callFn retryDelay remaining (attempt + 1) sleeps₂ (some e)

/-- Model of `call_llm` (src/llm_api/__init__.py lines 218-309).  The two
`ValueError` raises for an unknown or disabled model key are modelled by
the two boolean guards; the provider call is `callFn`, indexed by the
attempt number.  Source defaults: `max_retries = 3`,
`retry_delay = 1.0`. -/
def call_llm (modelKnown modelEnabled : Bool)
    (callFn : Nat → Except String String) (maxRetries : Nat)
    (retryDelay : ℚ) : CallLlmResult :=
  if !modelKnown then ⟨.error "ValueError: unsupported model", 0, []⟩
  else if !modelEnabled then ⟨.error "ValueError: model disabled", 0, []⟩
  else callLlmAux callFn retryDelay maxRetries 0 [] none

-- ---------------------------------------------------------------------------
-- src/debate/logger.py and src/logger/logger.py : code generation
-- ---------------------------------------------------------------------------

/-- The Python format specifier `\x7bturn:02d\x7d`. -/
def pad2 (n : Nat) : String :=
  if n < 10 then "0" ++ toString n else toString n

/-- Model of `generate_code` (src/debate/logger.py lines 15-28) and of the
identical `_generate_code` (src/logger/logger.py lines 47-49):
`f"\x7bagent_id\x7d_r\x7bround\x7d_\x7bturn:02d\x7d_\x7boutput_type\x7d"`. -/
def generate_code (agentId : String) (round turn : Nat)
    (outputType : String) : String :=
  agentId ++ "_r" ++ toString round ++ "_" ++ pad2 turn ++ "_" ++ outputType

/-- Record kind: `"r"` for a debate (utterance) record, `"t"` for a think
record — the `output_type` argument of `generate_code`. -/
inductive RecKind where
  | r : RecKind
  | t : RecKind
  deriving Repr, DecidableEq

/-- One logged record of a run, identified by the quadruple that
`generate_code` consumes plus the think type recorded in the row. -/
structure LogRec where
  agentId : String
  round : Nat
  turn : Nat
  kind : RecKind
  thinkType : String
  deriving Repr, DecidableEq

/-- The code assigned to a record by the logger. -/
def LogRec.code (lr : LogRec) : String :=
  generate_code lr.agentId lr.round lr.turn
    (match lr.kind with | .r => "r" | .t => "t")

-- ---------------------------------------------------------------------------
-- src/debate/simulation.py : the per-agent run logging schedule
-- ---------------------------------------------------------------------------

/-- Round-0 narrative logging (src/debate/simulation.py lines 220-234):
`narrative_turn` starts at 1 and increments once per resident in list
order. -/
def narrativeSchedule (residents : List String) : List LogRec :=
  residents.enum.map (fun p => ⟨p.2, 0, p.1 + 1, .t, "narrative"⟩)

/-- Round-0 initial-opinion logging (src/debate/simulation.py lines
260-277): `initial_turn` starts again at 1 and increments once per
resident in list order. -/
def initialSchedule (residents : List String) : List LogRec :=
  residents.enum.map (fun p => ⟨p.2, 0, p.1 + 1, .t, "initial"⟩)

/-- The SPEAKING/REACTION part of one round (src/debate/simulation.py
lines 287-357): speakers take turns 1.. in list order; a round-local
`think_turn` counter starts at 1 and increments across all reaction
records of the round. Returns the records and the final counter value. -/
def speakFold (residents : List String) (r : Nat) : List LogRec × Nat :=
  residents.enum.foldl
    (fun acc p =>
      let turn := p.1 + 1
      let sp := p.2
      let debateRec : LogRec := ⟨sp, r, turn, .r, ""⟩
      let others := residents.filter (fun x => x != sp)
      let step := others.foldl
        (fun acc₂ oid =>
          (acc₂.1 ++ [(⟨oid, r, acc₂.2, .t, "reaction"⟩ : LogRec)],
           acc₂.2 + 1))
        ([], acc.2)
      (acc.1 ++ [debateRec] ++ step.1, step.2))
    ([], 1)

/-- One full round (src/debate/simulation.py lines 284-396): the
reflection records use turns `think_turn + reflect_turn` with
`reflect_turn` starting at 1. -/
def roundSchedule (residents : List String) (r : Nat) : List LogRec :=
  let sf := speakFold residents r
  sf.1 ++ residents.enum.map
    (fun p => ⟨p.2, r, sf.2 + (p.1 + 1), .t, "reflection"⟩)

/-- Final-opinion logging (src/debate/simulation.py lines 419-433): round
`n_rounds + 1`, turns 1.. in list order. -/
def finalSchedule (residents : List String) (nRounds : Nat) : List LogRec :=
  residents.enum.map (fun p => ⟨p.2, nRounds + 1, p.1 + 1, .t, "final"⟩)

/-- The complete sequence of records that `DebateSimulation.run` submits
to the logger, in submission order (src/debate/simulation.py lines
178-440).  This models the `log_think`/`log_debate` invocations exactly as
they are written in the controller — their agent, round, turn and kind
arguments — independently of any other fault that may abort a concrete
run earlier. -/
def runLogSchedule (residents : List String) (nRounds : Nat) : List LogRec :=
  narrativeSchedule residents ++ initialSchedule residents
    ++ ((List.range nRounds).map (fun k => roundSchedule residents (k + 1))).flatten
    ++ finalSchedule residents nRounds

-- ---------------------------------------------------------------------------
-- src/agent_api/memory.py : Memory
-- ---------------------------------------------------------------------------

/-- One entry of the unified timeline (slot 5 of `Memory`). -/
inductive TimelineItem where
  | utterance : String → String → TimelineItem
  | myUtterance : String → TimelineItem
  | myThink : String → TimelineItem
  deriving Repr, DecidableEq

/-- Model of `Memory` (src/agent_api/memory.py): four static slots, the
unified timeline, and the task slot. -/
structure Memory where
  systemContext : String
  debateRule : String
  localContext : String
  persona : String
  timeline : List TimelineItem
  task : String
  deriving Repr, DecidableEq

/-- `Memory.add_utterance` (src/agent_api/memory.py lines 29-31). -/
def Memory.add_utterance (m : Memory) (speaker content : String) : Memory :=
  { m with timeline := m.timeline ++ [.utterance speaker content] }

/-- `Memory.add_my_utterance` (src/agent_api/memory.py lines 33-35). -/
def Memory.add_my_utterance (m : Memory) (content : String) : Memory :=
  { m with timeline := m.timeline ++ [.myUtterance content] }

/-- `Memory.add_my_think` (src/agent_api/memory.py lines 37-39). -/
def Memory.add_my_think (m : Memory) (content : String) : Memory :=
  { m with timeline := m.timeline ++ [.myThink content] }

/-- `Memory.set_task` (src/agent_api/memory.py lines 41-43). -/
def Memory.set_task (m : Memory) (t : String) : Memory := { m with task := t }

/-- Model of a Python method call `m.<method>(args)` on a `Memory`
instance: attribute lookup raises `AttributeError` for any name that the
class does not define (`Memory` defines only `add_utterance`,
`add_my_utterance`, `add_my_think`, `set_task` and `get_all`).  Arity
errors are not modelled; no modelled call site mis-counts arguments of an
existing method. -/
def memoryCall (m : Memory) (method : String) (args : List String) :
    Except PyExn Memory :=
  match method, args with
  | "add_utterance", [speaker, content] => .ok (m.add_utterance speaker content)
  | "add_my_utterance", [content] => .ok (m.add_my_utterance content)
  | "add_my_think", [content] => .ok (m.add_my_think content)
  | "set_task", [t] => .ok (m.set_task t)
  | other, _ => .error (.attributeError other)

/-- Replace one resident memory in the roster. -/
def updateMem (mems : List (String × Memory)) (rid : String) (m : Memory) :
    List (String × Memory) :=
  mems.map (fun p => if p.1 = rid then (rid, m) else p)

/-- Read one resident memory from the roster. -/
def getMem (mems : List (String × Memory)) (rid : String) : Memory :=
  match mems.lookup rid with
  | some m => m
  | none => ⟨"", "", "", "", [], ""⟩

/-- Model of the post-SPEAKING memory fan-out (src/debate/simulation.py
lines 316-320): the controller iterates over all residents and calls
`memory.add_conversation(speaker_id, parsed["발화"])` on every resident
other than the speaker; a raised exception aborts the loop (and with it
the speaking turn). -/
def speakingFanOut (speakerId utter : String) :
    List String → List (String × Memory) →
    Except PyExn (List (String × Memory))
  | [], mems => .ok mems
  | rid :: rest, mems =>
    if rid != speakerId then
      match memoryCall (getMem mems rid) "add_conversation"
          [speakerId, utter] with
      | .ok m₂ => speakingFanOut speakerId utter rest (updateMem mems rid m₂)
      | .error e => .error e
    else speakingFanOut speakerId utter rest mems

-- ---------------------------------------------------------------------------
-- src/debate/simulation.py lines 296-312 : the SPEAKING log call
-- ---------------------------------------------------------------------------

/-- The three parsed values that the controller passes to
`logger.log_debate` for a SPEAKING turn. -/
structure DebateLogArgs where
  utteranceVal : Json
  jimokVal : Json
  stanceVal : Json
  deriving Repr

/-- Model of the argument evaluation for `logger.log_debate` in a SPEAKING
turn (src/debate/simulation.py lines 298-312): the gateway response is
parsed with `parse_response` and the parsed dictionary is subscripted at
발화, 지목 and 입장. -/
def speakingTurnLogArgs (response : Option String) :
    Except PyExn DebateLogArgs := do
  let parsed ← parse_response response
  let b ← pyGetItem parsed "발화"
  let j ← pyGetItem parsed "지목"
  let i ← pyGetItem parsed "입장"
  return ⟨b, j, i⟩

-- ---------------------------------------------------------------------------
-- src/debate/simulation_lv1.py lines 240-284 : the batch SPEAKING phase
-- ---------------------------------------------------------------------------

/-- The retry loop of the Lv.1 SPEAKING phase (src/debate/simulation_lv1.py
lines 241-248): attempts are numbered 1.., each attempt issues a fresh
whole-batch LLM call (`responses attempt`), and the loop stops at the
first attempt whose batch parse does not return `None`.  Returns the
parsed speeches (or `none` when every attempt failed) and the number of
the last attempt made.  The structural argument `remaining` is the number
of attempts still allowed, so `remaining = maxRetries + 1 - attempt`. -/
def lv1SpeakingAttempts (responses : Nat → Option String) :
    Nat → Nat → Except PyExn (Option (List (List (String × Json))) × Nat)
  | 0, attempt => .ok (none, attempt - 1)
  | remaining + 1, attempt =>
    match parse_batch_speech (responses attempt) with
    | .error e => .error e
    | .ok (some l) => .ok (some l, attempt)
    | .ok none => lv1SpeakingAttempts responses remaining (attempt + 1)

/-- Python `str()` on the decoded values that can appear as a
`resident_id`. -/
def pyStr : Json → String
  | .str s => s
  | .null => "None"
  | .bool true => "True"
  | .bool false => "False"
  | .num n => toString n
  | _ => ""

/-- One utterance record logged by the Lv.1 controller. -/
structure Lv1DebateRec where
  code : String
  round : Nat
  turn : Nat
  residentId : Json
  utterance : Json
  jimok : Json
  deriving Repr

/-- Model of one Lv.1 debate round (src/debate/simulation_lv1.py lines
240-271): after the bounded whole-batch retry, a total failure skips the
round (`speeches = []`, so no utterance record is logged) and the run
continues; otherwise each speech is logged with turn numbers 1.. and the
code `_generate_code(resident_id, round, turn, "r")`. -/
def lv1Round (responses : Nat → Option String) (roundNum : Nat) :
    Except PyExn (List Lv1DebateRec) :=
  match lv1SpeakingAttempts responses 3 1 with
  | .error e => .error e
  | .ok (result, _) =>
    let speeches := match result with | none => [] | some l => l
    .ok (speeches.enum.map (fun p =>
      let rid := pyDictGet p.2 "resident_id" .null
      { code := generate_code (pyStr rid) roundNum (p.1 + 1) "r",
        round := roundNum,
        turn := p.1 + 1,
        residentId := rid,
        utterance := pyDictGet p.2 "발화" (.str ""),
        jimok := pyDictGet p.2 "지목" (.arr []) }))

-- ---------------------------------------------------------------------------
-- Definitions following the spec wording (for refinement comparison)
-- ---------------------------------------------------------------------------

/-- Scan for the end of a balanced brace span (auxiliary to
`firstBraceSpan`). -/
def takeBalanced : List Char → Nat → List Char → Option (List Char)
  | [], _, _ => none
  | c :: rest, depth, acc =>
    if c = '\x7b' then takeBalanced rest (depth + 1) (acc ++ [c])
    else if c = '\x7d' then
      if depth = 1 then some (acc ++ [c])
      else takeBalanced rest (depth - 1) (acc ++ [c])
    else takeBalanced rest depth (acc ++ [c])

/-- Modelled from the spec (§4.3 step 3): the first balanced
`\x7b...\x7d` span of the raw text, the "best-effort fallback decode
target".  This step does not exist in src/debate/parser.py. -/
def firstBraceSpan (s : String) : Option String :=
  match s.data.dropWhile (fun c => c != '\x7b') with
  | [] => none
  | c :: rest => (takeBalanced rest 1 [c]).map String.mk

/-- First successful application of `f` along a list. -/
def firstSome {α β : Type} (f : α → Option β) : List α → Option β
  | [] => none
  | x :: xs =>
    match f x with
    | some y => some y
    | none => firstSome f xs

/-- Modelled from the spec (§4.3 steps 1-5), for comparison with the
implemented `parse_response`: strip fences and decode; on failure decode
the first balanced brace span; on continued failure run the LLM repair
loop up to `maxRetries` times (each repaired text re-runs steps 1-2); if
everything fails, degrade to the default carrying the raw text.  The
repair loop and the brace-span fallback do not exist in
src/debate/parser.py. -/
def parseStructuredSpec (repair : Nat → Option String) (maxRetries : Nat)
    (raw : String) : List (String × Json) :=
  let tryDecode : String → Option (List (String × Json)) := fun s =>
    match jsonLoads (stripMarkdown (some s)) with
    | some (.obj fields) =>
      some [("발화", pyDictGet fields "발화" (.str raw)),
            ("지목", normalizeJimok fields)]
    | _ => none
  match tryDecode raw with
  | some r => r
  | none =>
    match (firstBraceSpan raw).bind tryDecode with
    | some r => r
    | none =>
      match firstSome (fun i => (repair i).bind tryDecode)
          (List.range maxRetries) with
      | some r => r
      | none => [("발화", Json.str raw), ("지목", Json.arr [])]

/-- Whether a decoded nomination value is a list whose every element is an
object carrying both a 대상 (target) and an 입장 (attitude) key — the
"list of \x7btarget, attitude\x7d pairs" shape that the spec promises. -/
def nomIsPairList : Json → Bool
  | .arr xs => xs.all (fun x =>
      match x with
      | .obj f => f.any (fun p => p.1 = "대상") && f.any (fun p => p.1 = "입장")
      | _ => false)
  | _ => false

-- ---------------------------------------------------------------------------
-- Helper lemmas
-- ---------------------------------------------------------------------------

/-- A failed attempt advances the retry loop of `chat_with_retry` by one,
recording the back-off sleep unless this was the last attempt. -/
theorem chatRetryAux_failed_step (chat : Nat → ChatOutcome)
    (remaining attempt : Nat) (sleeps : List Nat)
    (h : chatFailed (chat attempt) = true) :
    chatRetryAux chat (remaining + 1) attempt sleeps =
      chatRetryAux chat remaining (attempt + 1)
        (if remaining != 0 then sleeps ++ [2 ^ attempt] else sleeps) := by
  cases hc : chat attempt with
  | raises m => simp [chatRetryAux, hc]
  | returns r u =>
    cases r with
    | none => simp [chatRetryAux, hc]
    | some s => rw [hc] at h; simp [chatFailed] at h

/-- Three failed attempts exhaust the default retry budget of
`chat_with_retry`: the result is the failure pair with back-off sleeps of
1 and 2 seconds. -/
theorem chat_with_retry_all_fail (chat : Nat → ChatOutcome)
    (h : ∀ i, i < 3 → chatFailed (chat i) = true) :
    chat_with_retry chat 3 = ⟨none, [], 3, [1, 2]⟩ := by
  calc chat_with_retry chat 3
      = chatRetryAux chat (2 + 1) 0 [] := rfl
    _ = chatRetryAux chat 2 (0 + 1)
          (if (2 : Nat) != 0 then [] ++ [2 ^ 0] else []) :=
        chatRetryAux_failed_step chat 2 0 [] (h 0 (by omega))
    _ = chatRetryAux chat (1 + 1) 1 [1] := by norm_num
    _ = chatRetryAux chat 1 (1 + 1)
          (if (1 : Nat) != 0 then [1] ++ [2 ^ 1] else [1]) :=
        chatRetryAux_failed_step chat 1 1 [1] (h 1 (by omega))
    _ = chatRetryAux chat (0 + 1) 2 [1, 2] := by norm_num
    _ = chatRetryAux chat 0 (2 + 1)
          (if (0 : Nat) != 0 then [1, 2] ++ [2 ^ 2] else [1, 2]) :=
        chatRetryAux_failed_step chat 0 2 [1, 2] (h 2 (by omega))
    _ = ⟨none, [], 3, [1, 2]⟩ := by norm_num [chatRetryAux]

/-- Any text returned by the retry loop stems from an actual non-null
provider response of one of the attempts. -/
theorem chatRetryAux_success_source (chat : Nat → ChatOutcome) :
    ∀ (remaining attempt : Nat) (sleeps : List Nat) (s : String),
      (chatRetryAux chat remaining attempt sleeps).text = some s →
      ∃ i u, attempt ≤ i ∧ i < attempt + remaining ∧
        chat i = .returns (some s) u := by
  intro remaining
  induction remaining with
  | zero =>
    intro attempt sleeps s h
    simp [chatRetryAux] at h
  | succ n ih =>
    intro attempt sleeps s h
    cases hc : chat attempt with
    | raises m =>
      simp only [chatRetryAux, hc] at h
      obtain ⟨i, u, hle, hlt, heq⟩ := ih (attempt + 1) _ s h
      exact ⟨i, u, by omega, by omega, heq⟩
    | returns r u =>
      cases r with
      | some t =>
        simp only [chatRetryAux, hc] at h
        simp at h
        exact ⟨attempt, u, le_refl _, by omega, by rw [hc, h]⟩
      | none =>
        simp only [chatRetryAux, hc] at h
        obtain ⟨i, u₂, hle, hlt, heq⟩ := ih (attempt + 1) _ s h
        exact ⟨i, u₂, by omega, by omega, heq⟩

/-- A batch parse failure advances the Lv.1 retry loop to the next
attempt. -/
theorem lv1_attempt_fail_step (responses : Nat → Option String)
    (remaining attempt : Nat)
    (h : parse_batch_speech (responses attempt) = .ok none) :
    lv1SpeakingAttempts responses (remaining + 1) attempt =
      lv1SpeakingAttempts responses remaining (attempt + 1) := by
  simp [lv1SpeakingAttempts, h]

/-- Every successful result of `parse_response` is a dictionary with
exactly the keys 발화 and 지목, in that order. -/
theorem parse_response_shape (response : Option String)
    (parsed : List (String × Json))
    (h : parse_response response = .ok parsed) :
    ∃ b j, parsed = [("발화", b), ("지목", j)] := by
  cases response with
  | none =>
    simp [parse_response] at h
    exact ⟨_, _, h.symm⟩
  | some s =>
    simp only [parse_response] at h
    split at h
    · exact ⟨_, _, (Except.ok.inj h).symm⟩
    · rename_i v _
      simp only [responseFromJson] at h
      split at h
      · exact ⟨_, _, (Except.ok.inj h).symm⟩
      · exact absurd h (by simp)

-- ---------------------------------------------------------------------------
-- Claim theorems
-- ---------------------------------------------------------------------------

/-- C1: the SPEAKING turn never records a degraded utterance record.  The
controller evaluates `parsed["입장"]` (src/debate/simulation.py line 311),
but `parse_response` returns a dictionary with exactly the keys 발화 and
지목, so every speaking turn — in particular the degraded one whose
gateway call failed all retries and returned `None` — raises `KeyError`
instead of logging a record and continuing to the REACTION phase. -/
theorem speaking_turn_stance_keyerror :
    speakingTurnLogArgs none = .error (PyExn.keyError "입장") ∧
    ∀ (response : Option String) (parsed : List (String × Json)),
      parse_response response = .ok parsed →
      parsed.lookup "입장" = none ∧
      speakingTurnLogArgs response = .error (PyExn.keyError "입장") := by
  refine ⟨rfl, ?_⟩
  intro response parsed h
  obtain ⟨b, j, rfl⟩ := parse_response_shape response parsed h
  refine ⟨rfl, ?_⟩
  simp only [speakingTurnLogArgs, h]
  rfl

/-- C1 witness: a concrete speaking turn (raw text response) raises the
입장 `KeyError`. -/
theorem speaking_turn_stance_keyerror_witness :
    speakingTurnLogArgs (some "hello") = .error (PyExn.keyError "입장") :=
  (speaking_turn_stance_keyerror.2 (some "hello")
    [("발화", Json.str "hello"), ("지목", Json.arr [])] rfl).2

/-- C2: the run log schedule of `DebateSimulation.run` assigns the same
generated code to two distinct records: with two residents and one round,
the round-0 narrative think record of resident_01 (index 0, turn 1) and
the round-0 initial-opinion think record of resident_01 (index 2, turn 1)
both receive the code resident_01_r0_01_t, because both round-0 turn
counters restart at 1 over the same residents. -/
theorem round0_think_code_collision :
    ((runLogSchedule ["resident_01", "resident_02"] 1).map LogRec.code).count
        "resident_01_r0_01_t" = 2 ∧
    (runLogSchedule ["resident_01", "resident_02"] 1)[0]? =
      some ⟨"resident_01", 0, 1, RecKind.t, "narrative"⟩ ∧
    (runLogSchedule ["resident_01", "resident_02"] 1)[2]? =
      some ⟨"resident_01", 0, 1, RecKind.t, "initial"⟩ ∧
    LogRec.code ⟨"resident_01", 0, 1, RecKind.t, "narrative"⟩ =
      "resident_01_r0_01_t" ∧
    LogRec.code ⟨"resident_01", 0, 1, RecKind.t, "initial"⟩ =
      "resident_01_r0_01_t" :=
  ⟨rfl, rfl, rfl, rfl, rfl⟩

/-- C3: the post-SPEAKING fan-out calls `Memory.add_conversation`, a
method that `Memory` does not define (it defines `add_utterance`), so as
soon as any resident other than the speaker exists the fan-out raises
`AttributeError` and no conversation history receives the utterance. -/
theorem fanout_missing_method :
    (∀ (utter : String) (mems : List (String × Memory)),
      speakingFanOut "resident_01" utter ["resident_01", "resident_02"] mems =
        .error (PyExn.attributeError "add_conversation")) ∧
    (∀ (residents : List String) (speakerId utter : String)
        (mems : List (String × Memory)),
      (∃ rid ∈ residents, rid ≠ speakerId) →
      speakingFanOut speakerId utter residents mems =
        .error (PyExn.attributeError "add_conversation")) := by
  refine ⟨fun _ _ => rfl, ?_⟩
  intro residents
  induction residents with
  | nil =>
    rintro speakerId utter mems ⟨rid, hmem, -⟩
    exact absurd hmem (List.not_mem_nil rid)
  | cons r rest ih =>
    rintro speakerId utter mems ⟨rid, hmem, hneq⟩
    by_cases hr : r = speakerId
    · have hrest : rid ∈ rest := by
        rcases List.mem_cons.mp hmem with h | h
        · exact absurd (h.trans hr) hneq
        · exact h
      rw [hr]
      simpa [speakingFanOut] using ih speakerId utter mems ⟨rid, hrest, hneq⟩
    · simp [speakingFanOut, hr, memoryCall]

/-- C3 witness: with a concrete roster, the fan-out of a speech by
resident_01 fails with the `AttributeError`. -/
theorem fanout_missing_method_witness :
    speakingFanOut "resident_01" "재개발 찬성입니다"
      ["resident_01", "resident_02"] [] =
      .error (PyExn.attributeError "add_conversation") :=
  fanout_missing_method.2 ["resident_01", "resident_02"] "resident_01"
    "재개발 찬성입니다" [] ⟨"resident_02", by simp, by decide⟩

/-- C4 counterexample: the degraded default is not distinguishable from a
validly parsed result — the malformed input "hello" (decode fails) and
the valid input with the same utterance produce identical outputs. -/
theorem degraded_default_indistinguishable :
    jsonLoads (stripMarkdown (some "hello")) = none ∧
    (jsonLoads (stripMarkdown (some "\x7b\"발화\": \"hello\"\x7d"))).isSome
      = true ∧
    parse_response (some "hello") =
      parse_response (some "\x7b\"발화\": \"hello\"\x7d") :=
  ⟨rfl, rfl, rfl⟩

/-- C4 amended: for every input whose decode fails, the three parse
functions return (not raise) their defaults carrying the original raw
text in the free-text field; the default, however, carries no flag and is
not distinguishable from a validly parsed result. -/
theorem parse_degradation_total (s : String)
    (h : jsonLoads (stripMarkdown (some s)) = none) :
    parse_response (some s) =
      .ok [("발화", Json.str s), ("지목", Json.arr [])] ∧
    parse_think (some s) =
      .ok [("상대의견", Json.null), ("반응유형", Json.null),
           ("생각", Json.str s)] ∧
    parse_initial_opinion (some s) =
      .ok [("입장", Json.str "무관심"), ("생각", Json.str s)] := by
  refine ⟨?_, ?_, ?_⟩ <;>
    simp [parse_response, parse_think, parse_initial_opinion, h]

/-- C4 witness: the degradation theorem applied to a concrete malformed
input. -/
theorem parse_degradation_total_witness :
    parse_response (some "형식 없는 응답") =
      .ok [("발화", Json.str "형식 없는 응답"), ("지목", Json.arr [])] ∧
    parse_think (some "형식 없는 응답") =
      .ok [("상대의견", Json.null), ("반응유형", Json.null),
           ("생각", Json.str "형식 없는 응답")] ∧
    parse_initial_opinion (some "형식 없는 응답") =
      .ok [("입장", Json.str "무관심"), ("생각", Json.str "형식 없는 응답")] :=
  parse_degradation_total "형식 없는 응답" rfl

/-- C5 counterexample: on an input whose direct decode fails but whose
first balanced brace span decodes successfully, the spec pipeline
(brace-span fallback, then repair loop) yields the decoded utterance
"hi", while `parse_response` ignores the span and returns the degraded
default carrying the whole raw text — the fallback and the repair loop do
not exist in the code. -/
theorem no_brace_span_no_repair :
    jsonLoads (stripMarkdown (some "note \x7b\"발화\": \"hi\"\x7d end"))
      = none ∧
    firstBraceSpan "note \x7b\"발화\": \"hi\"\x7d end" =
      some "\x7b\"발화\": \"hi\"\x7d" ∧
    parseStructuredSpec (fun _ => none) 3 "note \x7b\"발화\": \"hi\"\x7d end"
      = [("발화", Json.str "hi"), ("지목", Json.arr [])] ∧
    parse_response (some "note \x7b\"발화\": \"hi\"\x7d end") =
      .ok [("발화", Json.str "note \x7b\"발화\": \"hi\"\x7d end"),
           ("지목", Json.arr [])] ∧
    (("hi" : String) == "note \x7b\"발화\": \"hi\"\x7d end") = false :=
  ⟨rfl, rfl, rfl, rfl, rfl⟩

/-- C5 amended: on direct decode failure `parse_response` returns the
degraded default immediately — there is no balanced-brace extraction and
no repair loop resending the text through the gateway. -/
theorem decode_failure_immediate_default (s : String)
    (h : jsonLoads (stripMarkdown (some s)) = none) :
    parse_response (some s) =
      .ok [("발화", Json.str s), ("지목", Json.arr [])] := by
  simp [parse_response, h]

/-- C5 witness: the immediate-default theorem applied to a concrete
undecodable input containing a decodable brace span. -/
theorem decode_failure_immediate_default_witness :
    parse_response (some "말머리 \x7b\"발화\": \"네\"\x7d 꼬리") =
      .ok [("발화", Json.str "말머리 \x7b\"발화\": \"네\"\x7d 꼬리"),
           ("지목", Json.arr [])] :=
  decode_failure_immediate_default "말머리 \x7b\"발화\": \"네\"\x7d 꼬리" rfl

/-- C6 counterexample: an authentication failure is classified permanent
by the call_llm marker list, yet `chat_with_retry` — the gateway the
debate agents actually call — retries it three times with back-off sleeps
of 1 and 2 seconds instead of surfacing it immediately. -/
theorem auth_error_retried_by_chat_gateway :
    isPermanentErrorMsg "authentication failed" = true ∧
    chat_with_retry (fun _ => .raises "authentication failed") 3 =
      ⟨none, [], 3, [1, 2]⟩ :=
  ⟨rfl, chat_with_retry_all_fail _ (fun _ _ => rfl)⟩

/-- C6 amended: only `call_llm` implements the non-retryable class — a
permanent (auth/validation) error message is re-raised on the attempt it
occurs, with no further attempt and no back-off sleep — while
`BaseLLM.chat_with_retry` has no such class and retries a permanent-class
exception like any failure, with full back-off. -/
theorem permanent_error_fast_path_only_call_llm :
    (∀ (callFn : Nat → Except String String) (e : String),
      isPermanentErrorMsg e = true → callFn 0 = .error e →
      call_llm true true callFn 3 1 = ⟨.error e, 1, []⟩) ∧
    (∀ (chat : Nat → ChatOutcome) (e : String),
      isPermanentErrorMsg e = true →
      (∀ i, i < 3 → chat i = .raises e) →
      chat_with_retry chat 3 = ⟨none, [], 3, [1, 2]⟩) := by
  constructor
  · intro callFn e h1 h2
    calc call_llm true true callFn 3 1
        = callLlmAux callFn 1 (2 + 1) 0 [] none := rfl
      _ = ⟨.error e, 1, []⟩ := by simp [callLlmAux, h1, h2]
  · intro chat e _h1 h2
    exact chat_with_retry_all_fail chat (fun i hi => by rw [h2 i hi]; rfl)

/-- C6 witness: the fast path and the retried path at concrete inputs. -/
theorem permanent_error_fast_path_only_call_llm_witness :
    call_llm true true (fun _ => .error "invalid api key") 3 1 =
      ⟨.error "invalid api key", 1, []⟩ ∧
    chat_with_retry (fun _ => .raises "invalid api key") 3 =
      ⟨none, [], 3, [1, 2]⟩ :=
  ⟨permanent_error_fast_path_only_call_llm.1 _ "invalid api key" rfl rfl,
   permanent_error_fast_path_only_call_llm.2 _ "invalid api key" rfl
     (fun _ _ => rfl)⟩

/-- C7 counterexample: a provider returning the empty string on the first
attempt — `chat_with_retry` returns it as a success after a single
attempt, with no retry and no back-off sleep, so an empty response is not
treated as a retryable failure. -/
theorem empty_response_returned_as_success :
    chat_with_retry (fun _ => .returns (some "") [("prompt", 5)]) 3 =
      ⟨some "", [("prompt", 5)], 1, []⟩ :=
  rfl

/-- C7 amended: `chat_with_retry` retries up to its fixed bound of 3
attempts with back-off sleep `2 ^ attempt` seconds; a `None` (null)
response is treated as a retryable failure and any returned text stems
from an actual non-null provider response — but an empty-string response
is returned immediately as a success. -/
theorem chat_retry_bound_null_retryable :
    (∀ (chat : Nat → ChatOutcome),
      (∀ i, i < 3 → chatFailed (chat i) = true) →
      chat_with_retry chat 3 = ⟨none, [], 3, [1, 2]⟩) ∧
    (∀ (chat : Nat → ChatOutcome) (u₀ : Usage) (s : String) (u₁ : Usage),
      chat 0 = .returns none u₀ → chat 1 = .returns (some s) u₁ →
      chat_with_retry chat 3 = ⟨some s, u₁, 2, [1]⟩) ∧
    (∀ (chat : Nat → ChatOutcome) (s : String),
      (chat_with_retry chat 3).text = some s →
      ∃ i u, i < 3 ∧ chat i = .returns (some s) u) ∧
    chat_with_retry (fun _ => .returns (some "") []) 3 =
      ⟨some "", [], 1, []⟩ := by
  refine ⟨chat_with_retry_all_fail, ?_, ?_, rfl⟩
  · intro chat u₀ s u₁ h0 h1
    calc chat_with_retry chat 3
        = chatRetryAux chat (2 + 1) 0 [] := rfl
      _ = chatRetryAux chat 2 (0 + 1)
            (if (2 : Nat) != 0 then [] ++ [2 ^ 0] else []) :=
          chatRetryAux_failed_step chat 2 0 [] (by rw [h0]; rfl)
      _ = chatRetryAux chat (1 + 1) 1 [1] := by norm_num
      _ = ⟨some s, u₁, 2, [1]⟩ := by simp [chatRetryAux, h1]
  · intro chat s h
    obtain ⟨i, u, -, hlt, heq⟩ :=
      chatRetryAux_success_source chat 3 0 [] s h
    exact ⟨i, u, by omega, heq⟩

/-- C7 witness: the bound and the null-then-success retry at concrete
providers. -/
theorem chat_retry_bound_null_retryable_witness :
    chat_with_retry (fun _ => .raises "boom") 3 = ⟨none, [], 3, [1, 2]⟩ ∧
    chat_with_retry
      (fun i => if i = 0 then .returns none [] else
        .returns (some "ok") [("completion", 7)]) 3 =
      ⟨some "ok", [("completion", 7)], 2, [1]⟩ :=
  ⟨chat_retry_bound_null_retryable.1 _ (fun _ _ => rfl),
   chat_retry_bound_null_retryable.2.1 _ [] "ok" [("completion", 7)] rfl rfl⟩

/-- C8: in batch mode the whole batch call is retried: when every one of
the three attempts yields a batch parse failure, the Lv.1 round is
skipped entirely — no utterance record is logged — and the run continues
(the round returns normally).  A non-array decode and a malformed
nomination entry are both whole-batch failures that trigger the retry. -/
theorem batch_round_skip_after_retries (responses : Nat → Option String)
    (h : ∀ a, 1 ≤ a → a ≤ 3 → parse_batch_speech (responses a) = .ok none) :
    lv1Round responses 1 = .ok [] ∧
    lv1SpeakingAttempts responses 3 1 = .ok (none, 3) ∧
    parse_batch_speech (some "\x7b\"no\": \"array\"\x7d") = .ok none ∧
    parse_batch_speech
      (some "[\x7b\"resident_id\": \"resident_01\", \"발화\": \"x\", \"지목\": [\"bad\"]\x7d]")
      = .ok none := by
  have hmain : lv1SpeakingAttempts responses 3 1 = .ok (none, 3) := by
    calc lv1SpeakingAttempts responses 3 1
        = lv1SpeakingAttempts responses (2 + 1) 1 := rfl
      _ = lv1SpeakingAttempts responses 2 2 :=
          lv1_attempt_fail_step responses 2 1 (h 1 (by omega) (by omega))
      _ = lv1SpeakingAttempts responses (1 + 1) 2 := rfl
      _ = lv1SpeakingAttempts responses 1 3 :=
          lv1_attempt_fail_step responses 1 2 (h 2 (by omega) (by omega))
      _ = lv1SpeakingAttempts responses (0 + 1) 3 := rfl
      _ = lv1SpeakingAttempts responses 0 4 :=
          lv1_attempt_fail_step responses 0 3 (h 3 (by omega) (by omega))
      _ = .ok (none, 3) := rfl
  refine ⟨?_, hmain, rfl, rfl⟩
  simp [lv1Round, hmain]

/-- C8 witness: the skip theorem applied to a provider whose batch
response never decodes as an array. -/
theorem batch_round_skip_after_retries_witness :
    lv1Round (fun _ => some "형식 오류") 1 = .ok [] :=
  (batch_round_skip_after_retries (fun _ => some "형식 오류")
    (fun _ _ _ => rfl)).1

/-- C9 counterexample: a successfully decoded response whose 지목 value is
already a list is passed through without element validation, so the
parsed nomination is not a list of 대상/입장 pairs. -/
theorem jimok_list_passthrough_unvalidated :
    parse_response (some "\x7b\"발화\": \"x\", \"지목\": [\"resident_05\"]\x7d")
      = .ok [("발화", Json.str "x"),
             ("지목", Json.arr [Json.str "resident_05"])] ∧
    nomIsPairList (Json.arr [Json.str "resident_05"]) = false :=
  ⟨rfl, rfl⟩

/-- C9 amended: the nomination normalisation of `parse_response` maps an
absent or null 지목 to the empty list and a legacy non-empty string 지목
to the one-element pair list carrying the top-level 입장 value (Scenario
D) — but a 지목 that is already a list is passed through as-is, without
validating that its elements are 대상/입장 pairs. -/
theorem jimok_normalization (fields : List (String × Json)) :
    (fields.lookup "지목" = none → normalizeJimok fields = Json.arr []) ∧
    (fields.lookup "지목" = some Json.null →
      normalizeJimok fields = Json.arr []) ∧
    (∀ t : String, fields.lookup "지목" = some (Json.str t) → t ≠ "" →
      normalizeJimok fields =
        Json.arr [Json.obj [("대상", Json.str t),
                            ("입장", pyDictGet fields "입장" Json.null)]]) ∧
    (∀ xs : List Json, fields.lookup "지목" = some (Json.arr xs) →
      normalizeJimok fields = Json.arr xs) ∧
    parse_response
      (some "\x7b\"발화\": \"x\", \"지목\": \"resident_05\", \"입장\": \"공감\"\x7d")
      = .ok [("발화", Json.str "x"),
             ("지목", Json.arr [Json.obj [("대상", Json.str "resident_05"),
                                          ("입장", Json.str "공감")]])] := by
  refine ⟨?_, ?_, ?_, ?_, rfl⟩
  · intro h; simp [normalizeJimok, pyDictGet, h]
  · intro h; simp [normalizeJimok, pyDictGet, h]
  · intro t h ht; simp [normalizeJimok, pyDictGet, h, pyTruthy, ht]
  · intro xs h; simp [normalizeJimok, pyDictGet, h]

/-- C9 witness: the normalisation cases at concrete field lists. -/
theorem jimok_normalization_witness :
    normalizeJimok [("발화", Json.str "x")] = Json.arr [] ∧
    normalizeJimok [("지목", Json.null)] = Json.arr [] ∧
    normalizeJimok [("지목", Json.str "resident_05"), ("입장", Json.str "공감")]
      = Json.arr [Json.obj [("대상", Json.str "resident_05"),
                            ("입장", Json.str "공감")]] ∧
    normalizeJimok [("지목", Json.arr [Json.str "a"])]
      = Json.arr [Json.str "a"] :=
  ⟨(jimok_normalization [("발화", Json.str "x")]).1 rfl,
   (jimok_normalization [("지목", Json.null)]).2.1 rfl,
   (jimok_normalization
      [("지목", Json.str "resident_05"), ("입장", Json.str "공감")]).2.2.1
     "resident_05" rfl (by decide),
   (jimok_normalization [("지목", Json.arr [Json.str "a"])]).2.2.2.1
     [Json.str "a"] rfl⟩

/-- C10: the gateway-to-parser boundary is total over the gateway failure
value — when every chat attempt raises or returns null, `chat_with_retry`
returns the pair (null, empty usage) instead of raising, and each parse
function applied to a null input returns its documented default with the
[응답 없음] placeholder, without raising. -/
theorem gateway_null_boundary_total (chat : Nat → ChatOutcome)
    (h : ∀ i, i < 3 → chatFailed (chat i) = true) :
    (chat_with_retry chat 3).text = none ∧
    (chat_with_retry chat 3).usage = [] ∧
    parse_response none =
      .ok [("발화", Json.str "[응답 없음]"), ("지목", Json.arr [])] ∧
    parse_think none =
      .ok [("상대의견", Json.null), ("반응유형", Json.null),
           ("생각", Json.str "[응답 없음]")] ∧
    parse_initial_opinion none =
      .ok [("입장", Json.str "무관심"), ("생각", Json.str "[응답 없음]")] := by
  have hr := chat_with_retry_all_fail chat h
  exact ⟨by rw [hr], by rw [hr], rfl, rfl, rfl⟩

/-- C10 witness: the boundary theorem at a provider that always raises. -/
theorem gateway_null_boundary_total_witness :
    (chat_with_retry (fun _ => .raises "연결 실패") 3).text = none ∧
    (chat_with_retry (fun _ => .raises "연결 실패") 3).usage = [] ∧
    parse_response none =
      .ok [("발화", Json.str "[응답 없음]"), ("지목", Json.arr [])] ∧
    parse_think none =
      .ok [("상대의견", Json.null), ("반응유형", Json.null),
           ("생각", Json.str "[응답 없음]")] ∧
    parse_initial_opinion none =
      .ok [("입장", Json.str "무관심"), ("생각", Json.str "[응답 없음]")] :=
  gateway_null_boundary_total (fun _ => .raises "연결 실패") (fun _ _ => rfl)

end UrbanSim
